import Mathlib

/-!
Verification development for the `What-s-up-braeker` repository.

The repository has two entry layers:
* `cmd/wa-bridge/main.go` — the C-ABI bridge (`WaRun`): config normalization,
  a string-based `messageCollector`, and the connect/send/listen state machine.
* `pkg/waclient` (source file with unknown name, `src/unnamed/part_000`) — the
  library runner: `messageRecord`, `newMessageRecord`, `extractMessageText`,
  `appendRecord`, `processHistorySyncMessages`, `snapshotRecords`.

Machine integers (Go `int`, `time.Duration` in nanoseconds, Unix instants) are
modelled as `Int`; `float64` (only `listen_seconds`) is modelled as `ℚ`, exact
for every value appearing in the claims.  External library calls (whatsmeow,
sqlite, the network) are modelled by an oracle of outcomes; every branch of the
repository's own code is kept.
-/

deriving instance DecidableEq for Except

/-- Models Go `unicode.IsSpace` (the Latin-1 fast path; wider Unicode
space categories do not occur in any input considered here). -/
def goIsSpace (c : Char) : Bool :=
  c = ' ' || c = '\t' || c = '\n' || c = '\x0b' || c = '\x0c' || c = '\r' ||
  c = '\u0085' || c = ' '

/-- Models Go `strings.TrimSpace`. -/
def goTrimSpace (s : String) : String :=
  String.mk (((s.toList.dropWhile goIsSpace).reverse.dropWhile goIsSpace).reverse)

/-- Models Go `fmt.Sprintf("%t", b)`. -/
def goBoolString (b : Bool) : String :=
  if b then "true" else "false"

/-- Models `digitsOnly` from `cmd/wa-bridge/main.go`: keep the digit runes.
(Go `unicode.IsDigit` restricted to ASCII digits, the only digits in scope.) -/
def digitsOnly (s : String) : String :=
  String.mk (s.toList.filter Char.isDigit)

namespace Bridge

/-! ## cmd/wa-bridge/main.go -/

/-- Models the `Response` JSON struct.  `lastMessages = none` models the Go
`nil` slice (field never assigned). -/
structure Response where
  status : String
  error : String := ""
  messageID : String := ""
  lastMessages : Option (List String) := none
  requiresQR : Bool := false
deriving DecidableEq

def defaultReadLimit : Int := 10
def defaultListenSeconds : ℚ := 10
def defaultMessageBuffer : Int := 50
def maxMessageBuffer : Int := 1000

/-- Models `runPayload`, the decoded JSON request (JSON decoding itself is
elided; a request object corresponds to the record of its decoded fields,
absent fields taking Go zero values). -/
structure runPayload where
  SendText : String := ""
  Recipient : String := ""
  ReadChat : String := ""
  ReadLimit : Int := 0
  ListenSeconds : ℚ := 0
  ShowQR : Bool := false
  ForceRelink : Bool := false
deriving DecidableEq

/-- Models `normalizedConfig`.  `ListenDuration` is in nanoseconds
(Go `time.Duration`). -/
structure normalizedConfig where
  SendText : String
  ShouldSend : Bool
  Recipient : String
  ShouldListen : Bool
  ReadChat : String
  ReadLimit : Int
  ListenDuration : Int
  explicitReadLimit : Bool
  ShowQR : Bool
  ForceRelink : Bool
deriving DecidableEq

/-- Models `time.Duration(listenSeconds * float64(time.Second))`: seconds to
nanoseconds, truncated toward zero as Go's float-to-integer conversion does;
`s * 10^9 = (s.num * 10^9) / s.den` exactly. -/
def listenDurationNs (s : ℚ) : Int := (s.num * 1000000000).tdiv s.den

def nothingToDoMsg : String :=
  "nothing to do: provide send_text, listening options, show_qr, or force_relink"

/-! The locals of Go's `normalizeConfig` (`sendText`, `recipient`, `readChat`,
`readLimit`, `listenSeconds`, `listenDuration`, `shouldSend`, `shouldListen`,
`explicitReadLimit`), as named functions of the payload. -/

/-- `shouldSend := sendText != "" && recipient != ""`. -/
def shouldSendOf (p : runPayload) : Bool :=
  goTrimSpace p.SendText != "" && goTrimSpace p.Recipient != ""

/-- `readChat`, after defaulting to `recipient` when omitted. -/
def resolvedReadChat (p : runPayload) : String :=
  if goTrimSpace p.ReadChat == "" then goTrimSpace p.Recipient
  else goTrimSpace p.ReadChat

/-- `explicitReadLimit := readLimit != 0` (before clamping). -/
def explicitReadLimitOf (p : runPayload) : Bool :=
  p.ReadLimit != 0

/-- `readLimit` after clamping negatives to 0. -/
def clampedReadLimit (p : runPayload) : Int :=
  if p.ReadLimit < 0 then 0 else p.ReadLimit

/-- `listenSeconds` after clamping negatives to 0. -/
def clampedListenSeconds (p : runPayload) : ℚ :=
  if p.ListenSeconds < 0 then 0 else p.ListenSeconds

/-- `listenDuration` before the default is applied. -/
def rawListenDuration (p : runPayload) : Int :=
  listenDurationNs (clampedListenSeconds p)

/-- `shouldListen := readChat != "" || readLimit > 0 || listenDuration > 0`. -/
def shouldListenOf (p : runPayload) : Bool :=
  resolvedReadChat p != "" || decide (0 < clampedReadLimit p) ||
  decide (0 < rawListenDuration p)

/-- `listenDuration` after the listening default is applied. -/
def finalListenDuration (p : runPayload) : Int :=
  if shouldListenOf p && decide (rawListenDuration p ≤ 0) then
    listenDurationNs defaultListenSeconds
  else rawListenDuration p

/-- `readLimit` after the deployment default count is applied. -/
def finalReadLimit (p : runPayload) : Int :=
  if shouldListenOf p && decide (clampedReadLimit p = 0) &&
      !explicitReadLimitOf p && decide (clampedListenSeconds p = 0) then
    defaultReadLimit
  else clampedReadLimit p

/-- Models `normalizeConfig` (after `parseRunPayload`). -/
def normalizeConfig (payload : runPayload) : Except String normalizedConfig :=
  if goTrimSpace payload.SendText != "" && goTrimSpace payload.Recipient == "" then
    .error "recipient is required when send_text is provided"
  else if !shouldSendOf payload && !shouldListenOf payload && !payload.ShowQR &&
      !payload.ForceRelink then
    .error nothingToDoMsg
  else if shouldListenOf payload && resolvedReadChat payload == "" then
    .error "read_chat or recipient is required when listening for messages"
  else
    .ok {
      SendText := goTrimSpace payload.SendText
      ShouldSend := shouldSendOf payload
      Recipient := goTrimSpace payload.Recipient
      ShouldListen := shouldListenOf payload
      ReadChat := resolvedReadChat payload
      ReadLimit := finalReadLimit payload
      ListenDuration := finalListenDuration payload
      explicitReadLimit := explicitReadLimitOf payload
      ShowQR := payload.ShowQR
      ForceRelink := payload.ForceRelink
    }

/-- Models `determineBufferCap`. -/
def determineBufferCap (limit : Int) : Int :=
  let bufferCap := defaultMessageBuffer
  let bufferCap := if bufferCap < limit then limit else bufferCap
  if maxMessageBuffer < bufferCap then maxMessageBuffer else bufferCap

/-- Models `messageCollector`.  The one-shot `done` channel (capacity 1) is
modelled by `hasDone` (the channel was allocated), `doneBuf` (tokens currently
buffered), and `fireCount` (model instrumentation: how many sends into the
channel ever succeeded; the bridge drains the channel at most once, at the
single listen wait, so sends observed here are those before that wake-up). -/
structure messageCollector where
  messages : List String
  bufferCap : Int
  limit : Int
  hasDone : Bool
  doneBuf : Nat
  fireCount : Nat
deriving DecidableEq

/-- Models `newMessageCollector`. -/
def newMessageCollector (limit bufferCap : Int) : messageCollector :=
  let cap := if bufferCap ≤ 0 then 1 else bufferCap
  { messages := [], bufferCap := cap, limit := limit,
    hasDone := decide (0 < limit), doneBuf := 0, fireCount := 0 }

/-- Models `messageCollector.add`: append, truncate to the retention cap
(keeping the newest entries), then—if the positive target is met—perform the
non-blocking send into `done` (dropped when a token is already buffered). -/
def messageCollector.add (mc : messageCollector) (msg : String) : messageCollector :=
  let msgs0 := mc.messages ++ [msg]
  let msgs :=
    if mc.bufferCap < (msgs0.length : Int) then
      msgs0.drop (msgs0.length - mc.bufferCap.toNat)
    else msgs0
  if decide (0 < mc.limit) && decide (mc.limit ≤ (msgs.length : Int)) && mc.hasDone then
    if mc.doneBuf = 0 then
      { mc with messages := msgs, doneBuf := 1, fireCount := mc.fireCount + 1 }
    else
      { mc with messages := msgs }
  else
    { mc with messages := msgs }

/-- Models `messageCollector.snapshot`. -/
def messageCollector.snapshot (mc : messageCollector) : List String :=
  mc.messages

/-- Models `parseChatIdentifier`.  The `@`-branch calls the external
`types.ParseJID`; no input in scope contains `@`, and the external parse is
modelled as succeeding with the input itself. -/
def parseChatIdentifier (raw : String) : Except String String :=
  let trimmed := goTrimSpace raw
  if trimmed == "" then .error "empty chat identifier"
  else if trimmed.toList.contains '@' then .ok trimmed
  else
    let digits := digitsOnly trimmed
    if digits == "" then .error "no digits in chat identifier"
    else .ok (digits ++ "@s.whatsapp.net")

/-- Models `parseAccountIdentifier` (result as the JID's string form;
`types.DefaultUserServer = "s.whatsapp.net"`). -/
def parseAccountIdentifier (raw : String) : Except String String :=
  let digits := digitsOnly (goTrimSpace raw)
  if digits == "" then .error "no digits in phone"
  else .ok (digits ++ "@s.whatsapp.net")

/-- How the single listen wait of `WaRun` resolves. -/
inductive ListenOutcome where
  | signal
  | timedOut
  | blocked
  | skipped
deriving DecidableEq

/-- Models the listen wait of `WaRun` (the `select` on `collector.done` and the
duration timer, lines 459–477): the driving call wakes on the completion
signal when one was sent, otherwise on the timer; with no timer and no signal
it blocks forever (unreachable through `normalizeConfig`). -/
def listenPhase (readLimit durationNs : Int) (coll : messageCollector) : ListenOutcome :=
  if 0 < readLimit ∧ coll.hasDone = true then
    if 0 < durationNs then
      if coll.fireCount ≠ 0 then .signal else .timedOut
    else
      if coll.fireCount ≠ 0 then .signal else .blocked
  else if 0 < durationNs then .timedOut
  else .skipped

/-- Observable side effects of one `WaRun` call, in program order. -/
inductive WaEffect where
  | dbInit
  | getDevice
  | newClient
  | storeDelete
  | connect
  | sleepStabilize
  | send
  | listen (outcome : ListenOutcome)
  | disconnect
deriving DecidableEq

/-- Outcomes of the external calls `WaRun` makes (sqlite store, whatsmeow
client, network).  `arrivals` are the formatted strings the event handler
feeds to the collector before the listen wait resolves. -/
structure WaOracle where
  storedID : Option String
  dbInitOk : Bool
  getDeviceOk : Bool
  deleteOk : Bool
  getDeviceOk2 : Bool
  connectErr : Option String
  sendOutcome : Except String String
  arrivals : List String

def errResp (e : String) : Response :=
  { status := "error", error := e }

def mismatchMsg (existing account : String) : String :=
  "stored session is linked to " ++ existing ++ ", but " ++ account ++
  " was requested; rerun with force_relink=true to re-authorize"

/-- Models `WaRun` from the recipient parse (line 308) to the end: parse the
send and read targets, set `RequiresQR`, connect, stabilization sleep, send,
listen, snapshot, teardown.  `storedIsNone` is whether `client.Store.ID` is
nil at this point (after any reset).  The deferred `client.Disconnect` runs on
every exit path entered after a successful connect. -/
def waRunConnect (cfg : normalizedConfig) (o : WaOracle) (storedIsNone : Bool)
    (t : List WaEffect) : Response × List WaEffect :=
  match (if cfg.ShouldSend then parseChatIdentifier cfg.Recipient else .ok "") with
  | .error e => (errResp ("invalid recipient: " ++ e), t)
  | .ok _sendTarget =>
  match (if cfg.ShouldListen then parseChatIdentifier cfg.ReadChat else .ok "") with
  | .error e => (errResp ("invalid read_chat: " ++ e), t)
  | .ok _readTarget =>
  let requiresQR := storedIsNone
  let t := t ++ [WaEffect.connect]
  match o.connectErr with
  | some e =>
    ({ errResp ((if storedIsNone then "failed to connect (qr): " else "failed to connect: ") ++ e)
        with requiresQR := requiresQR }, t)
  | none =>
  -- connected := true; the QR pairing loop (print-only) runs until the
  -- pairing stream closes when storedIsNone
  let t := if cfg.ShouldSend || cfg.ShouldListen then t ++ [WaEffect.sleepStabilize] else t
  let sendStep : Except (Response × List WaEffect) (String × List WaEffect) :=
    if cfg.ShouldSend then
      if cfg.SendText == "" then
        -- `message is empty after conversion` guard (dead: ShouldSend forces
        -- non-empty SendText); the defer still disconnects
        .error ({ errResp "message is empty after conversion" with requiresQR := requiresQR },
                t ++ [WaEffect.disconnect])
      else
        match o.sendOutcome with
        | .error e =>
          .error ({ errResp ("failed to send: " ++ e) with requiresQR := requiresQR },
                  t ++ [WaEffect.send, WaEffect.disconnect])
        | .ok id => .ok (id, t ++ [WaEffect.send])
    else .ok ("", t)
  match sendStep with
  | .error r => r
  | .ok (messageID, t) =>
  if cfg.ShouldListen then
    let coll := o.arrivals.foldl messageCollector.add
      (newMessageCollector cfg.ReadLimit (determineBufferCap cfg.ReadLimit))
    let outcome := listenPhase cfg.ReadLimit cfg.ListenDuration coll
    let t := t ++ [WaEffect.listen outcome]
    ({ status := "ok", messageID := messageID,
       lastMessages := some coll.snapshot, requiresQR := requiresQR },
     t ++ [WaEffect.disconnect])
  else
    ({ status := "ok", messageID := messageID, requiresQR := requiresQR },
     t ++ [WaEffect.disconnect])

/-- Models the `resetSession` block of `WaRun` (lines 292–306): delete the
stored session, reacquire the device, recreate the client; afterwards
`client.Store.ID` is nil. -/
def waRunReset (cfg : normalizedConfig) (o : WaOracle) (t : List WaEffect) :
    Response × List WaEffect :=
  let t := t ++ [WaEffect.storeDelete]
  if !o.deleteOk then (errResp "failed to reset stored session", t)
  else
    let t := t ++ [WaEffect.getDevice]
    if !o.getDeviceOk2 then (errResp "failed to prepare device after reset", t)
    else
      waRunConnect cfg o true (t ++ [WaEffect.newClient])

/-- Models `WaRun` as a function of the account phone, the decoded request
payload and the oracle of external outcomes, returning the response and the
trace of observable effects.  Wrapped error details of the store/device
failures are elided from the error strings. -/
def waRun (phone : String) (payload : runPayload) (o : WaOracle) :
    Response × List WaEffect :=
  match parseAccountIdentifier phone with
  | .error e => (errResp ("invalid account phone: " ++ e), [])
  | .ok accountJIDString =>
  match normalizeConfig payload with
  | .error e => (errResp e, [])
  | .ok cfg =>
  -- second `nothing to do` guard (unreachable after normalizeConfig)
  if !cfg.ShouldSend && !cfg.ShouldListen && !cfg.ShowQR && !cfg.ForceRelink then
    (errResp nothingToDoMsg, [])
  else
  if !o.dbInitOk then (errResp "failed to init db", [WaEffect.dbInit])
  else
  if !o.getDeviceOk then (errResp "failed to get device", [WaEffect.dbInit, WaEffect.getDevice])
  else
  let t := [WaEffect.dbInit, WaEffect.getDevice, WaEffect.newClient]
  match o.storedID with
  | some existing =>
    if existing = accountJIDString then
      if cfg.ForceRelink then waRunReset cfg o t
      else waRunConnect cfg o false t
    else
      if cfg.ForceRelink then waRunReset cfg o t
      else (errResp (mismatchMsg existing accountJIDString), t)
  | none => waRunConnect cfg o true t

end Bridge

namespace Waclient

/-! ## pkg/waclient (src/unnamed/part_000) -/

/-- Models `messageRecord`; `timestamp` is an absolute instant in
nanoseconds. -/
structure messageRecord where
  key : String
  timestamp : Int
  content : String
deriving DecidableEq

/-! Models of the whatsmeow message content variants probed by
`extractMessageText`; a `Get…` on a nil pointer yields the zero value, so
optional sub-messages are `Option`s and absent strings are `""`. -/

structure ExtendedTextMessage where
  text : String := ""

structure ImageMessage where
  caption : String := ""

structure VideoMessage where
  caption : String := ""

structure DocumentMessage where
  caption : String := ""

structure ButtonsMessage where
  contentText : String := ""
  footerText : String := ""

structure ButtonsResponseMessage where
  selectedDisplayText : String := ""
  selectedButtonID : String := ""

structure SingleSelectReply where
  selectedRowID : String := ""

structure ListResponseMessage where
  title : String := ""
  singleSelectReply : Option SingleSelectReply := none

structure TemplateButtonReplyMessage where
  selectedDisplayText : String := ""
  selectedID : String := ""

structure HydratedFourRowTemplate where
  hydratedContentText : String := ""
  hydratedTitleText : String := ""
  hydratedFooterText : String := ""

structure TemplateMessage where
  hydratedTemplate : Option HydratedFourRowTemplate := none

/-- Models `*waProto.Message` (the content variants read by this package). -/
structure WAMessage where
  conversation : String := ""
  extendedTextMessage : Option ExtendedTextMessage := none
  imageMessage : Option ImageMessage := none
  videoMessage : Option VideoMessage := none
  documentMessage : Option DocumentMessage := none
  buttonsMessage : Option ButtonsMessage := none
  buttonsResponseMessage : Option ButtonsResponseMessage := none
  listResponseMessage : Option ListResponseMessage := none
  templateButtonReplyMessage : Option TemplateButtonReplyMessage := none
  templateMessage : Option TemplateMessage := none

/-- Models `events.Message.Info` (the fields this package reads).
`timestamp = none` models a zero `time.Time` (`IsZero`). -/
structure MessageInfo where
  id : String := ""
  timestamp : Option Int := none
  isFromMe : Bool := false
  pushName : String := ""
  senderUser : String := ""
  chat : String := ""

/-- Models `*events.Message`. -/
structure MessageEvent where
  info : MessageInfo
  message : Option WAMessage := none

/-- First non-empty string of an ordered candidate list (empty when none). -/
def firstNonEmpty : List String → String
  | [] => ""
  | s :: rest => if s != "" then s else firstNonEmpty rest

/-- The string a `Get…` accessor yields on an optional sub-message: the field
on a present message, `""` on nil. -/
def getStr {α : Type} (o : Option α) (f : α → String) : String :=
  match o with
  | some x => f x
  | none => ""

/-- Models `extractMessageText`: probe the content variants in source order
and return the first non-empty result. -/
def extractMessageText (msg : Option WAMessage) : String :=
  match msg with
  | none => ""
  | some m =>
    firstNonEmpty [
      m.conversation,
      getStr m.extendedTextMessage ExtendedTextMessage.text,
      getStr m.imageMessage ImageMessage.caption,
      getStr m.videoMessage VideoMessage.caption,
      getStr m.documentMessage DocumentMessage.caption,
      getStr m.buttonsMessage ButtonsMessage.contentText,
      getStr m.buttonsMessage ButtonsMessage.footerText,
      getStr m.buttonsResponseMessage ButtonsResponseMessage.selectedDisplayText,
      getStr m.buttonsResponseMessage ButtonsResponseMessage.selectedButtonID,
      getStr m.listResponseMessage ListResponseMessage.title,
      getStr m.listResponseMessage
        (fun l => getStr l.singleSelectReply SingleSelectReply.selectedRowID),
      getStr m.templateButtonReplyMessage TemplateButtonReplyMessage.selectedDisplayText,
      getStr m.templateButtonReplyMessage TemplateButtonReplyMessage.selectedID,
      getStr m.templateMessage
        (fun t => getStr t.hydratedTemplate HydratedFourRowTemplate.hydratedContentText),
      getStr m.templateMessage
        (fun t => getStr t.hydratedTemplate HydratedFourRowTemplate.hydratedTitleText),
      getStr m.templateMessage
        (fun t => getStr t.hydratedTemplate HydratedFourRowTemplate.hydratedFooterText)
    ]

/-- Models `senderLabel`. -/
def senderLabel (evt : MessageEvent) : String :=
  if evt.info.isFromMe then "Ты"
  else if goTrimSpace evt.info.pushName != "" then goTrimSpace evt.info.pushName
  else if evt.info.senderUser != "" then evt.info.senderUser
  else "Собеседник"

/-- The two external time-formatting calls of `newMessageRecord`
(`Format("02.01.2006 15:04")` and `UTC().Format(time.RFC3339Nano)`),
abstracted as functions of the instant. -/
structure TimeFmt where
  display : Int → String
  rfc3339NanoUTC : Int → String

/-- Models `newMessageRecord`; `now` is the current process time substituted
for a zero event timestamp. -/
def newMessageRecord (fmt : TimeFmt) (now : Int) (evt : Option MessageEvent) :
    Option messageRecord :=
  match evt with
  | none => none
  | some evt =>
    match evt.message with
    | none => none
    | some _ =>
      let text := goTrimSpace (extractMessageText evt.message)
      if text = "" then none
      else
        let timestamp := match evt.info.timestamp with
          | none => now
          | some ts => ts
        let sender := senderLabel evt
        let formatted := "[" ++ fmt.display timestamp ++ "] " ++ sender ++ ": " ++ text
        let key :=
          if evt.info.id != "" then evt.info.id
          else
            fmt.rfc3339NanoUTC timestamp ++ "|" ++ sender ++ "|" ++
            goBoolString evt.info.isFromMe ++ "|" ++ text
        some { key := key, timestamp := timestamp, content := formatted }

/-- The collector state of `Run`: the mutex-guarded `messageLog` and the
`seenMessages` key set. -/
structure CollectorState where
  records : List messageRecord := []
  seen : List String := []
deriving DecidableEq

/-- Models `appendRecord`: reject an already-seen dedup key, else retain the
record and mark its key seen. -/
def appendRecord (st : CollectorState) (record : messageRecord) :
    Bool × CollectorState :=
  if st.seen.contains record.key then (false, st)
  else (true, { records := st.records ++ [record], seen := record.key :: st.seen })

/-- Models the `Config` fields consulted by the logic under proof (the writer
and logging fields are sinks and are elided). -/
structure Config where
  DatabaseURI : String := ""
  PhoneNumber : String := ""
  Chat : String := ""
  Message : String := ""
  WaitBeforeSend : Int := 0
  ListenAfterSend : Int := 0
  ReadLimit : Int := 0
  DisableQRPrinting : Bool := false
  IncludeFromMe : Bool := false
  IncludeFromMeSet : Bool := false

/-- Models lines 122–125 of `Run`: the effective include-self policy
(`includeFromMe := cfg.IncludeFromMe; if !cfg.IncludeFromMeSet
{ includeFromMe = true }`). -/
def resolveIncludeFromMe (cfg : Config) : Bool :=
  if !cfg.IncludeFromMeSet then true else cfg.IncludeFromMe

/-- Models the `events.Message` arm of `Run`'s event handler (lines 129–141):
target filter, self-sent filter, record conversion, collector append. -/
def handleLiveMessage (fmt : TimeFmt) (now : Int) (targetJIDString : String)
    (includeFromMe : Bool) (st : CollectorState) (v : MessageEvent) :
    CollectorState :=
  if targetJIDString != "" && v.info.chat != targetJIDString then st
  else if v.info.isFromMe && !includeFromMe then st
  else match newMessageRecord fmt now (some v) with
    | some record => (appendRecord st record).2
    | none => st

/-- One entry of `conv.GetMessages()` as seen after the external
`client.ParseWebMessage` call: `none` models a nil entry or nil inner message,
`.error` a parse failure (logged and skipped), `.ok` the parsed event. -/
def HistoryMessage := Option (Except String MessageEvent)

/-- One history conversation; `jidString` is the outcome of the external
`types.ParseJID(chatID)` (`none` = parse error, `some s` =
`chatJID.String()`). -/
structure HistoryConversation where
  chatID : String := ""
  jidString : Option String := none
  messages : List HistoryMessage := []

/-- Models `history.Data` (`none` conversations entries model nil pointers). -/
structure HistoryData where
  conversations : List (Option HistoryConversation) := []

/-- Models `processHistorySyncMessages`: for each conversation matching the
target, convert and offer each parsed message to the collector, skipping nil
entries, parse failures and (per policy) self-sent messages; count accepted
records. -/
def processHistorySyncMessages (fmt : TimeFmt) (now : Int)
    (history : Option HistoryData) (targetJID : String) (includeFromMe : Bool)
    (st : CollectorState) : CollectorState × Nat :=
  match history with
  | none => (st, 0)
  | some data =>
    data.conversations.foldl (fun acc conv? =>
      match conv? with
      | none => acc
      | some conv =>
        if conv.chatID = "" then acc
        else match conv.jidString with
        | none => acc
        | some chatJIDStr =>
          if targetJID != "" && chatJIDStr != targetJID then acc
          else conv.messages.foldl (fun acc m? =>
            match m? with
            | none => acc
            | some (.error _) => acc
            | some (.ok evt) =>
              if evt.info.isFromMe && !includeFromMe then acc
              else match newMessageRecord fmt now (some evt) with
              | some record =>
                let step := appendRecord acc.1 record
                (step.2, if step.1 then acc.2 + 1 else acc.2)
              | none => acc) acc) (st, 0)

/-- The strict comparison of `snapshotRecords`'s `sort.SliceStable` closure:
timestamp ascending, content ascending on equal timestamps. -/
def recordLt (a b : messageRecord) : Bool :=
  if a.timestamp = b.timestamp then a.content < b.content
  else a.timestamp < b.timestamp

/-- The non-strict order induced by `recordLt`; `sort.SliceStable` with a
strict weak order `lt` computes the same list as a stable merge sort with
`le a b := !lt b a`. -/
def recordLe (a b : messageRecord) : Bool :=
  !recordLt b a

/-- Models `snapshotRecords`: copy, stable sort by `(timestamp, content)`,
and keep the newest `limit` entries when `0 < limit`. -/
def snapshotRecords (records : List messageRecord) (limit : Int) :
    List messageRecord :=
  if records.isEmpty then []
  else
    let snapshot := records.mergeSort recordLe
    if 0 < limit ∧ limit < (snapshot.length : Int) then
      snapshot.drop (snapshot.length - limit.toNat)
    else snapshot

/-- Models `recordsToStrings`. -/
def recordsToStrings (records : List messageRecord) : List String :=
  records.map messageRecord.content

end Waclient

namespace Bridge

/-- Invariant of the `messageCollector` states reachable by `add` from
`newMessageCollector`: `L` is the configured target, `C` the effective
retention cap; the buffered-token count matches the successful-send count,
at most one send ever succeeds before the single drain, and a send has
succeeded exactly when the retained count has reached a positive target. -/
def collInv (L C : Int) (mc : messageCollector) : Prop :=
  mc.limit = L ∧ mc.bufferCap = C ∧ 1 ≤ C ∧ mc.hasDone = decide (0 < L) ∧
  mc.doneBuf = mc.fireCount ∧ mc.fireCount ≤ 1 ∧
  mc.messages.length ≤ C.toNat ∧
  (mc.fireCount = 1 ↔ 0 < L ∧ L ≤ (mc.messages.length : Int))

/-- The account JID string for phone `79001111111`. -/
def accountJID : String := "79001111111@s.whatsapp.net"

/-- A request that both sends and listens. -/
def sendListenPayload : runPayload :=
  { SendText := "hi", Recipient := "123", ReadLimit := 1, ListenSeconds := 5 }

/-- A listen-only request. -/
def listenOnlyPayload : runPayload := { Recipient := "123" }

/-- A relink-only request. -/
def relinkOnlyPayload : runPayload := { ForceRelink := true }

/-- An oracle under which everything succeeds except the outbound send,
while one inbound message arrives. -/
def sendFailOracle : WaOracle :=
  { storedID := some accountJID, dbInitOk := true, getDeviceOk := true,
    deleteOk := true, getDeviceOk2 := true, connectErr := none,
    sendOutcome := .error "network down", arrivals := ["ping"] }

/-- Whether an effect is the listen wait. -/
def WaEffect.isListen : WaEffect → Bool
  | .listen _ => true
  | _ => false

/-- The resolved plan of `listenOnlyPayload`. -/
def listenOnlyCfg : normalizedConfig :=
  { SendText := "", ShouldSend := false, Recipient := "123", ShouldListen := true,
    ReadChat := "123", ReadLimit := 10, ListenDuration := 10000000000,
    explicitReadLimit := false, ShowQR := false, ForceRelink := false }

/-- The resolved plan of `relinkOnlyPayload`. -/
def relinkOnlyCfg : normalizedConfig :=
  { SendText := "", ShouldSend := false, Recipient := "", ShouldListen := false,
    ReadChat := "", ReadLimit := 0, ListenDuration := 0,
    explicitReadLimit := false, ShowQR := false, ForceRelink := true }

end Bridge

namespace Waclient

/-- Folding a record sequence into `Run`'s collector through `appendRecord`,
from the empty state. -/
def appendAll (records : List messageRecord) : CollectorState :=
  records.foldl (fun st r => (appendRecord st r).2) {}

/-- Invariant of collector states reachable through `appendRecord`: retained
keys are pairwise distinct and every retained key is marked seen. -/
def seenInv (st : CollectorState) : Prop :=
  (st.records.map messageRecord.key).Nodup ∧
  ∀ k ∈ st.records.map messageRecord.key, k ∈ st.seen

/-- The observable sort key of a record: its timestamp and content line. -/
def proj (r : messageRecord) : Int × String := (r.timestamp, r.content)

/-- Timestamp ascending, content ascending as tie-break, on sort keys. -/
def projOrder (x y : Int × String) : Prop :=
  x.1 < y.1 ∨ (x.1 = y.1 ∧ x.2 ≤ y.2)

/-- `projOrder` lifted to records: the order `snapshotRecords` sorts by. -/
def keyOrder (a b : messageRecord) : Prop :=
  projOrder (proj a) (proj b)

instance : IsAntisymm (Int × String) projOrder := by
  constructor
  intro x y h1 h2
  unfold projOrder at h1 h2
  have hts : x.1 = y.1 := by
    rcases h1 with h1 | ⟨h1, _⟩ <;> rcases h2 with h2 | ⟨h2, _⟩ <;> omega
  have hc : x.2 = y.2 := by
    rcases h1 with h1 | ⟨_, h1⟩
    · omega
    · rcases h2 with h2 | ⟨_, h2⟩
      · omega
      · exact le_antisymm h1 h2
  exact Prod.ext hts hc

/-- Stand-in time formatter for concrete instances (the formatter is external
to the package; any function works). -/
def testFmt : TimeFmt :=
  { display := fun _ => "01.01.2024 00:00",
    rfc3339NanoUTC := fun _ => "2024-01-01T00:00:00Z" }

/-- A self-sent plain-text message event in chat `123@s.whatsapp.net`. -/
def selfEvent : MessageEvent :=
  { info := { id := "m1", timestamp := some 100, isFromMe := true,
              pushName := "", senderUser := "79001111111",
              chat := "123@s.whatsapp.net" },
    message := some { conversation := "hello" } }

/-- A keyless event: no backend message ID and a zero timestamp. -/
def keylessEvent : MessageEvent :=
  { info := { id := "", timestamp := none, isFromMe := false,
              pushName := "Alice", senderUser := "79001111111",
              chat := "123@s.whatsapp.net" },
    message := some { conversation := "hi" } }

/-- A history-sync payload with one conversation holding one entry. -/
def singletonHistory (cid : String) (jid : Option String) (m : HistoryMessage) :
    HistoryData :=
  { conversations := [some { chatID := cid, jidString := jid, messages := [m] }] }

end Waclient

/-! ## Supporting lemmas -/

namespace Bridge

theorem collInv_new (L C : Int) :
    collInv L (if C ≤ 0 then 1 else C) (newMessageCollector L C) := by
  refine ⟨rfl, rfl, by split <;> omega, rfl, rfl, Nat.le_succ 0, Nat.zero_le _, ?_⟩
  show (0 : Nat) = 1 ↔ 0 < L ∧ L ≤ (([] : List String).length : Int)
  simp

theorem collInv_add_aux (L C : Int) (mc : messageCollector) (X : List String)
    (hlim : mc.limit = L) (hC1 : 1 ≤ C) (hdone : mc.hasDone = decide (0 < L))
    (hbuf : mc.doneBuf = mc.fireCount) (hfc : mc.fireCount ≤ 1)
    (hiff : mc.fireCount = 1 ↔ 0 < L ∧ L ≤ (mc.messages.length : Int))
    (hcap : mc.bufferCap = C)
    (hmono : mc.messages.length ≤ X.length) (hle : X.length ≤ C.toNat) :
    collInv L C
      (if (decide (0 < mc.limit) && decide (mc.limit ≤ (X.length : Int)) && mc.hasDone) = true then
        (if mc.doneBuf = 0 then
          { mc with messages := X, doneBuf := 1, fireCount := mc.fireCount + 1 }
        else { mc with messages := X })
      else { mc with messages := X }) := by
  by_cases hcond : (decide (0 < mc.limit) && decide (mc.limit ≤ (X.length : Int)) && mc.hasDone) = true
  · have hreach : 0 < L ∧ L ≤ (X.length : Int) := by
      rw [hlim, hdone] at hcond
      simp only [Bool.and_eq_true, decide_eq_true_eq] at hcond
      exact hcond.1
    rw [if_pos hcond]
    by_cases hz : mc.doneBuf = 0
    · rw [if_pos hz]
      have hfc0 : mc.fireCount = 0 := by omega
      refine ⟨hlim, hcap, hC1, hdone, ?_, ?_, hle, ?_⟩
      · simp [hfc0]
      · simp [hfc0]
      · simp only [hfc0]
        simpa using hreach
    · rw [if_neg hz]
      have hfc1 : mc.fireCount = 1 := by omega
      refine ⟨hlim, hcap, hC1, hdone, hbuf, hfc, hle, ?_⟩
      simp only
      constructor
      · intro _; exact hreach
      · intro _; exact hfc1
  · have hnreach : ¬(0 < L ∧ L ≤ (X.length : Int)) := by
      intro ⟨h1, h2⟩
      apply hcond
      rw [hlim, hdone]
      simp only [Bool.and_eq_true, decide_eq_true_eq]
      exact ⟨⟨h1, h2⟩, h1⟩
    rw [if_neg hcond]
    refine ⟨hlim, hcap, hC1, hdone, hbuf, hfc, hle, ?_⟩
    simp only
    constructor
    · intro h1
      rcases hiff.mp h1 with ⟨hL, hcount⟩
      exact absurd ⟨hL, by omega⟩ hnreach
    · intro hr
      exact absurd hr hnreach

theorem collInv_add (L C : Int) (mc : messageCollector) (m : String)
    (h : collInv L C mc) : collInv L C (mc.add m) := by
  obtain ⟨hlim, hcap, hC1, hdone, hbuf, hfc, hlen, hiff⟩ := h
  unfold messageCollector.add
  simp only
  by_cases hover : mc.bufferCap < (((mc.messages ++ [m]).length : Nat) : Int)
  · rw [if_pos hover]
    simp only [List.length_append, List.length_cons, List.length_nil] at hover
    refine collInv_add_aux L C mc _ hlim hC1 hdone hbuf hfc hiff hcap ?_ ?_
    · simp only [List.length_drop, List.length_append, List.length_cons, List.length_nil]
      omega
    · simp only [List.length_drop, List.length_append, List.length_cons, List.length_nil]
      omega
  · rw [if_neg hover]
    simp only [List.length_append, List.length_cons, List.length_nil, not_lt] at hover
    refine collInv_add_aux L C mc _ hlim hC1 hdone hbuf hfc hiff hcap ?_ ?_
    · simp
    · simp only [List.length_append, List.length_cons, List.length_nil]
      omega

theorem collInv_foldl (L C : Int) (adds : List String) (mc : messageCollector)
    (h : collInv L C mc) : collInv L C (adds.foldl messageCollector.add mc) := by
  induction adds generalizing mc with
  | nil => exact h
  | cons a rest ih => exact ih _ (collInv_add L C mc a h)

/-- Inversion for successful normalization: the resulting plan is exactly the
resolved fields. -/
theorem normalizeConfig_ok_inversion (p : runPayload) (cfg : normalizedConfig)
    (h : normalizeConfig p = .ok cfg) :
    cfg = { SendText := goTrimSpace p.SendText, ShouldSend := shouldSendOf p,
            Recipient := goTrimSpace p.Recipient, ShouldListen := shouldListenOf p,
            ReadChat := resolvedReadChat p, ReadLimit := finalReadLimit p,
            ListenDuration := finalListenDuration p,
            explicitReadLimit := explicitReadLimitOf p,
            ShowQR := p.ShowQR, ForceRelink := p.ForceRelink } := by
  unfold normalizeConfig at h
  split at h
  · simp at h
  · split at h
    · simp at h
    · split at h
      · simp at h
      · rw [Except.ok.injEq] at h
        exact h.symm

theorem normalizeConfig_listen_duration_pos (p : runPayload)
    (cfg : normalizedConfig) (h : normalizeConfig p = .ok cfg)
    (hl : cfg.ShouldListen = true) : 0 < cfg.ListenDuration := by
  rw [normalizeConfig_ok_inversion p cfg h] at hl ⊢
  simp only at hl ⊢
  unfold finalListenDuration
  rw [hl]
  by_cases hd : rawListenDuration p ≤ 0
  · rw [if_pos (by simp [hd])]
    decide
  · rw [if_neg (by simp [hd])]
    omega

theorem shouldListenOf_false_iff (p : runPayload) :
    shouldListenOf p = false ↔
      (goTrimSpace p.ReadChat = "" ∧ goTrimSpace p.Recipient = "" ∧
       p.ReadLimit ≤ 0 ∧ rawListenDuration p ≤ 0) := by
  unfold shouldListenOf resolvedReadChat clampedReadLimit
  by_cases hrc : goTrimSpace p.ReadChat == ""
  · rw [if_pos hrc]
    have hrc2 : goTrimSpace p.ReadChat = "" := by simpa using hrc
    simp only [Bool.or_eq_false_iff, bne_eq_false_iff_eq, decide_eq_false_iff_not, not_lt, hrc2,
      true_and]
    constructor
    · intro h
      obtain ⟨⟨h1, h2⟩, h3⟩ := h
      refine ⟨h1, ?_, h3⟩
      by_cases hneg : p.ReadLimit < 0
      · omega
      · rw [if_neg hneg] at h2
        omega
    · intro h
      obtain ⟨h1, h2, h3⟩ := h
      refine ⟨⟨h1, ?_⟩, h3⟩
      by_cases hneg : p.ReadLimit < 0
      · rw [if_pos hneg]
      · rw [if_neg hneg]
        omega
  · rw [if_neg hrc]
    have hrc2 : ¬(goTrimSpace p.ReadChat = "") := by simpa using hrc
    simp only [Bool.or_eq_false_iff, bne_eq_false_iff_eq, decide_eq_false_iff_not, not_lt]
    constructor
    · intro h
      exact absurd h.1.1 hrc2
    · intro h
      exact absurd h.1 hrc2

end Bridge

namespace Waclient

theorem appendRecord_seenInv (st : CollectorState) (r : messageRecord)
    (h : seenInv st) : seenInv (appendRecord st r).2 := by
  obtain ⟨hnd, hsub⟩ := h
  unfold appendRecord
  by_cases hc : st.seen.contains r.key
  · rw [if_pos hc]
    exact ⟨hnd, hsub⟩
  · rw [if_neg hc]
    have hnot : r.key ∉ st.seen := by
      intro hmem
      exact hc (List.elem_eq_true_of_mem hmem)
    constructor
    · simp only [List.map_append, List.map_cons, List.map_nil]
      rw [List.nodup_append]
      refine ⟨hnd, List.nodup_singleton _, ?_⟩
      intro k hk hk2
      simp only [List.mem_singleton] at hk2
      subst hk2
      exact hnot (hsub _ hk)
    · intro k hk
      simp only [List.map_append, List.map_cons, List.map_nil, List.mem_append,
        List.mem_singleton] at hk
      rcases hk with hk | hk
      · exact List.mem_cons_of_mem _ (hsub k hk)
      · subst hk
        exact List.mem_cons_self _ _

theorem foldl_seenInv (records : List messageRecord) (st : CollectorState)
    (h : seenInv st) :
    seenInv (records.foldl (fun st r => (appendRecord st r).2) st) := by
  induction records generalizing st with
  | nil => exact h
  | cons a rest ih => exact ih _ (appendRecord_seenInv st a h)

theorem appendAll_seenInv (records : List messageRecord) :
    seenInv (appendAll records) := by
  refine foldl_seenInv records {} ⟨List.nodup_nil, ?_⟩
  intro k hk
  simp only [List.map_nil] at hk
  exact absurd hk (List.not_mem_nil k)

theorem appendRecord_rejects (st : CollectorState) (r : messageRecord)
    (h : r.key ∈ st.seen) : appendRecord st r = (false, st) := by
  unfold appendRecord
  rw [if_pos (List.elem_eq_true_of_mem h)]

theorem recordLe_iff (a b : messageRecord) : recordLe a b = true ↔ keyOrder a b := by
  unfold recordLe recordLt keyOrder projOrder proj
  by_cases h : b.timestamp = a.timestamp
  · simp [h, not_lt]
  · have h2 : ¬(a.timestamp = b.timestamp) := fun hh => h hh.symm
    simp [h, h2, not_lt]
    omega

theorem recordLe_trans (a b c : messageRecord) :
    recordLe a b → recordLe b c → recordLe a c := by
  intro h1 h2
  rw [recordLe_iff] at h1 h2 ⊢
  unfold keyOrder projOrder proj at h1 h2 ⊢
  rcases h1 with h1 | ⟨h1, h1c⟩ <;> rcases h2 with h2 | ⟨h2, h2c⟩
  · exact Or.inl (lt_trans h1 h2)
  · exact Or.inl (h2 ▸ h1)
  · exact Or.inl (h1 ▸ h2)
  · exact Or.inr ⟨h1.trans h2, le_trans h1c h2c⟩

theorem recordLe_total (a b : messageRecord) : recordLe a b || recordLe b a := by
  rw [Bool.or_eq_true, recordLe_iff, recordLe_iff]
  unfold keyOrder projOrder proj
  rcases lt_trichotomy a.timestamp b.timestamp with h | h | h
  · exact Or.inl (Or.inl h)
  · rcases le_total a.content b.content with hc | hc
    · exact Or.inl (Or.inr ⟨h, hc⟩)
    · exact Or.inr (Or.inr ⟨h.symm, hc⟩)
  · exact Or.inr (Or.inl h)

theorem sorted_mergeSort_records (records : List messageRecord) :
    (records.mergeSort recordLe).Pairwise keyOrder := by
  have h := @List.sorted_mergeSort messageRecord recordLe recordLe_trans
    recordLe_total records
  exact h.imp (fun hab => (recordLe_iff _ _).mp hab)

theorem proj_sorted_mergeSort (records : List messageRecord) :
    ((records.mergeSort recordLe).map proj).Sorted projOrder :=
  List.Pairwise.map proj (fun _ _ h => h) (sorted_mergeSort_records records)

/-- Permutation-invariance of the sorted key sequence. -/
theorem proj_mergeSort_eq (r1 r2 : List messageRecord) (h : r1.Perm r2) :
    (r1.mergeSort recordLe).map proj = (r2.mergeSort recordLe).map proj := by
  apply @List.eq_of_perm_of_sorted (Int × String) projOrder _ _ _
  · exact ((List.mergeSort_perm r1 recordLe).trans
      (h.trans (List.mergeSort_perm r2 recordLe).symm)).map proj
  · exact proj_sorted_mergeSort r1
  · exact proj_sorted_mergeSort r2

end Waclient

/-! ## Claims -/

/-- C1 counterexample: on a plan with both a send and a listen, a send failure
makes `WaRun` return the error response immediately — the trace contains no
listen wait, the connection is torn down, and the response carries no
`last_messages` even though a message had arrived. -/
theorem c1_send_failure_skips_listen :
    Bridge.waRun "79001111111" Bridge.sendListenPayload Bridge.sendFailOracle =
      ({ status := "error", error := "failed to send: network down" },
       [Bridge.WaEffect.dbInit, Bridge.WaEffect.getDevice, Bridge.WaEffect.newClient,
        Bridge.WaEffect.connect, Bridge.WaEffect.sleepStabilize, Bridge.WaEffect.send,
        Bridge.WaEffect.disconnect])
    ∧ (Bridge.waRun "79001111111" Bridge.sendListenPayload
        Bridge.sendFailOracle).1.lastMessages = none
    ∧ (Bridge.waRun "79001111111" Bridge.sendListenPayload
        Bridge.sendFailOracle).2.all (fun ef => !ef.isListen) = true := by
  refine ⟨by decide, by decide, by decide⟩

/-- C1 (amended): with both a send and a listen planned, any send failure
aborts the run with a `failed to send` error response: the listen phase never
runs, the response carries no `last_messages` (whatever arrived), and the
deferred disconnect still tears the connection down. -/
theorem c1_send_failure_aborts_run :
    ∀ (e : String) (arr : List String),
      Bridge.waRun "79001111111" Bridge.sendListenPayload
        { storedID := some Bridge.accountJID, dbInitOk := true, getDeviceOk := true,
          deleteOk := true, getDeviceOk2 := true, connectErr := none,
          sendOutcome := .error e, arrivals := arr } =
      ({ status := "error", error := "failed to send: " ++ e, messageID := "",
         lastMessages := none, requiresQR := false },
       [Bridge.WaEffect.dbInit, Bridge.WaEffect.getDevice, Bridge.WaEffect.newClient,
        Bridge.WaEffect.connect, Bridge.WaEffect.sleepStabilize, Bridge.WaEffect.send,
        Bridge.WaEffect.disconnect]) := by
  intro e arr
  rfl

/-- C7: with a stored identity differing from the requested account and all
store operations succeeding, `force_relink=false` fails with the
identity-mismatch error having attempted no connection, while
`force_relink=true` deletes the stored session and creates a fresh device and
client before the first connect. -/
theorem c7_identity_mismatch :
    ∀ (s : String) (ce : Option String) (so : Except String String) (arr : List String),
      s ≠ Bridge.accountJID →
      (Bridge.waRun "79001111111" Bridge.listenOnlyPayload
          { storedID := some s, dbInitOk := true, getDeviceOk := true, deleteOk := true,
            getDeviceOk2 := true, connectErr := ce, sendOutcome := so, arrivals := arr } =
        (Bridge.errResp (Bridge.mismatchMsg s Bridge.accountJID),
         [Bridge.WaEffect.dbInit, Bridge.WaEffect.getDevice, Bridge.WaEffect.newClient]))
      ∧ (∃ rest, (Bridge.waRun "79001111111" Bridge.relinkOnlyPayload
            { storedID := some s, dbInitOk := true, getDeviceOk := true, deleteOk := true,
              getDeviceOk2 := true, connectErr := ce, sendOutcome := so, arrivals := arr }).2 =
          [Bridge.WaEffect.dbInit, Bridge.WaEffect.getDevice, Bridge.WaEffect.newClient,
           Bridge.WaEffect.storeDelete, Bridge.WaEffect.getDevice, Bridge.WaEffect.newClient,
           Bridge.WaEffect.connect] ++ rest) := by
  intro s ce so arr hs
  constructor
  · have key : Bridge.waRun "79001111111" Bridge.listenOnlyPayload
        { storedID := some s, dbInitOk := true, getDeviceOk := true, deleteOk := true,
          getDeviceOk2 := true, connectErr := ce, sendOutcome := so, arrivals := arr } =
        (if s = Bridge.accountJID then
          Bridge.waRunConnect Bridge.listenOnlyCfg
            { storedID := some s, dbInitOk := true, getDeviceOk := true, deleteOk := true,
              getDeviceOk2 := true, connectErr := ce, sendOutcome := so, arrivals := arr }
            false [Bridge.WaEffect.dbInit, Bridge.WaEffect.getDevice, Bridge.WaEffect.newClient]
        else
          (Bridge.errResp (Bridge.mismatchMsg s Bridge.accountJID),
           [Bridge.WaEffect.dbInit, Bridge.WaEffect.getDevice, Bridge.WaEffect.newClient])) := rfl
    rw [key, if_neg hs]
  · have key2 : (Bridge.waRun "79001111111" Bridge.relinkOnlyPayload
        { storedID := some s, dbInitOk := true, getDeviceOk := true, deleteOk := true,
          getDeviceOk2 := true, connectErr := ce, sendOutcome := so, arrivals := arr }) =
        (if s = Bridge.accountJID then
          Bridge.waRunReset Bridge.relinkOnlyCfg
            { storedID := some s, dbInitOk := true, getDeviceOk := true, deleteOk := true,
              getDeviceOk2 := true, connectErr := ce, sendOutcome := so, arrivals := arr }
            [Bridge.WaEffect.dbInit, Bridge.WaEffect.getDevice, Bridge.WaEffect.newClient]
        else
          Bridge.waRunReset Bridge.relinkOnlyCfg
            { storedID := some s, dbInitOk := true, getDeviceOk := true, deleteOk := true,
              getDeviceOk2 := true, connectErr := ce, sendOutcome := so, arrivals := arr }
            [Bridge.WaEffect.dbInit, Bridge.WaEffect.getDevice, Bridge.WaEffect.newClient]) := rfl
    rw [key2, if_neg hs]
    cases ce with
    | none => exact ⟨[Bridge.WaEffect.disconnect], rfl⟩
    | some e => exact ⟨[], rfl⟩

/-- C7 witness. -/
theorem c7_identity_mismatch_witness :
    (Bridge.waRun "79001111111" Bridge.listenOnlyPayload
        { storedID := some "70000000000@s.whatsapp.net", dbInitOk := true,
          getDeviceOk := true, deleteOk := true, getDeviceOk2 := true,
          connectErr := none, sendOutcome := .ok "", arrivals := [] } =
      (Bridge.errResp (Bridge.mismatchMsg "70000000000@s.whatsapp.net" Bridge.accountJID),
       [Bridge.WaEffect.dbInit, Bridge.WaEffect.getDevice, Bridge.WaEffect.newClient]))
    ∧ (∃ rest, (Bridge.waRun "79001111111" Bridge.relinkOnlyPayload
          { storedID := some "70000000000@s.whatsapp.net", dbInitOk := true,
            getDeviceOk := true, deleteOk := true, getDeviceOk2 := true,
            connectErr := none, sendOutcome := .ok "", arrivals := [] }).2 =
        [Bridge.WaEffect.dbInit, Bridge.WaEffect.getDevice, Bridge.WaEffect.newClient,
         Bridge.WaEffect.storeDelete, Bridge.WaEffect.getDevice, Bridge.WaEffect.newClient,
         Bridge.WaEffect.connect] ++ rest) :=
  c7_identity_mismatch "70000000000@s.whatsapp.net" none (.ok "") [] (by decide)

/-- C2 counterexample: with the include-self option not explicitly set
(`IncludeFromMeSet = false`), the resolved policy is to include self-sent
messages, and a self-sent event reaches the collector through both the live
handler and history-sync processing — it is not excluded. -/
theorem c2_self_sent_included_by_default :
    Waclient.resolveIncludeFromMe {} = true
    ∧ Waclient.Config.IncludeFromMeSet {} = false
    ∧ Waclient.selfEvent.info.isFromMe = true
    ∧ (Waclient.handleLiveMessage Waclient.testFmt 0 "123@s.whatsapp.net"
        (Waclient.resolveIncludeFromMe {}) {} Waclient.selfEvent).records.length = 1
    ∧ (Waclient.processHistorySyncMessages Waclient.testFmt 0
        (some (Waclient.singletonHistory "123@s.whatsapp.net"
          (some "123@s.whatsapp.net") (some (.ok Waclient.selfEvent))))
        "123@s.whatsapp.net" (Waclient.resolveIncludeFromMe {}) {}).2 = 1 := by
  decide

/-- C2 (amended): when the caller does not explicitly set the include-self
option the resolved policy defaults to `true` (self-sent messages are
included); self-sent messages are excluded from live and backlog ingestion
exactly when the resolved policy is `false`, i.e. when the caller explicitly
set the option to exclude them. -/
theorem c2_self_filter_opt_out :
    (∀ cfg : Waclient.Config, cfg.IncludeFromMeSet = false →
        Waclient.resolveIncludeFromMe cfg = true)
    ∧ (∀ (fmt : Waclient.TimeFmt) (now : Int) (target : String)
        (st : Waclient.CollectorState) (v : Waclient.MessageEvent),
        v.info.isFromMe = true →
        Waclient.handleLiveMessage fmt now target false st v = st)
    ∧ (∀ (fmt : Waclient.TimeFmt) (now : Int) (target cid jid : String)
        (st : Waclient.CollectorState) (evt : Waclient.MessageEvent),
        evt.info.isFromMe = true →
        Waclient.processHistorySyncMessages fmt now
          (some (Waclient.singletonHistory cid (some jid) (some (.ok evt))))
          target false st = (st, 0)) := by
  refine ⟨?_, ?_, ?_⟩
  · intro cfg h
    simp [Waclient.resolveIncludeFromMe, h]
  · intro fmt now target st v hv
    unfold Waclient.handleLiveMessage
    split
    · rfl
    · rw [if_pos (by simp [hv])]
  · intro fmt now target cid jid st evt hevt
    unfold Waclient.processHistorySyncMessages Waclient.singletonHistory
    simp only [List.foldl_cons, List.foldl_nil]
    split
    · rfl
    · split
      · rfl
      · rw [if_pos (by simp [hevt])]

/-- C2 witness. -/
theorem c2_self_filter_opt_out_witness :
    Waclient.resolveIncludeFromMe { IncludeFromMe := true, IncludeFromMeSet := false } = true
    ∧ Waclient.handleLiveMessage Waclient.testFmt 0 "123@s.whatsapp.net" false {}
        Waclient.selfEvent = {}
    ∧ Waclient.processHistorySyncMessages Waclient.testFmt 0
        (some (Waclient.singletonHistory "123@s.whatsapp.net"
          (some "123@s.whatsapp.net") (some (.ok Waclient.selfEvent))))
        "123@s.whatsapp.net" false {} = ({}, 0) :=
  ⟨c2_self_filter_opt_out.1 { IncludeFromMe := true, IncludeFromMeSet := false } (by decide),
   c2_self_filter_opt_out.2.1 Waclient.testFmt 0 "123@s.whatsapp.net" {}
     Waclient.selfEvent (by decide),
   c2_self_filter_opt_out.2.2 Waclient.testFmt 0 "123@s.whatsapp.net"
     "123@s.whatsapp.net" "123@s.whatsapp.net" {} Waclient.selfEvent (by decide)⟩

/-- C9: whenever an inbound event yields a record, the record timestamp is the
event's timestamp with a zero timestamp replaced by the current process time;
the dedup key is the backend message ID when non-empty and otherwise the
composite of the (UTC RFC3339Nano-formatted) record timestamp, sender label,
self-sent flag and extracted text; and on a zero timestamp the substituted
time also appears in the formatted content line. -/
theorem c9_dedup_key_and_timestamp :
    ∀ (fmt : Waclient.TimeFmt) (now : Int) (evt : Waclient.MessageEvent)
      (r : Waclient.messageRecord),
      Waclient.newMessageRecord fmt now (some evt) = some r →
      (r.timestamp = (match evt.info.timestamp with | none => now | some ts => ts))
      ∧ (r.key = if evt.info.id != "" then evt.info.id
          else fmt.rfc3339NanoUTC r.timestamp ++ "|" ++ Waclient.senderLabel evt ++ "|" ++
               goBoolString evt.info.isFromMe ++ "|" ++
               goTrimSpace (Waclient.extractMessageText evt.message))
      ∧ (evt.info.timestamp = none →
          r.timestamp = now ∧
          r.content = "[" ++ fmt.display now ++ "] " ++ Waclient.senderLabel evt ++ ": " ++
            goTrimSpace (Waclient.extractMessageText evt.message)) := by
  intro fmt now evt r h
  simp only [Waclient.newMessageRecord] at h
  rcases hm : evt.message with _ | m
  · rw [hm] at h
    simp at h
  · rw [hm] at h
    simp only at h
    split at h
    · simp at h
    · rw [Option.some.injEq] at h
      subst h
      refine ⟨rfl, rfl, ?_⟩
      intro hts
      rw [hts]
      exact ⟨rfl, rfl⟩

/-- C9 witness. -/
theorem c9_dedup_key_and_timestamp_witness :
    ((Waclient.newMessageRecord Waclient.testFmt 42 (some Waclient.keylessEvent)).get
        (by decide)).timestamp = 42
    ∧ ((Waclient.newMessageRecord Waclient.testFmt 42 (some Waclient.keylessEvent)).get
        (by decide)).key =
      Waclient.testFmt.rfc3339NanoUTC 42 ++ "|" ++ Waclient.senderLabel Waclient.keylessEvent
        ++ "|" ++ goBoolString false ++ "|" ++ "hi" := by
  have h := c9_dedup_key_and_timestamp Waclient.testFmt 42 Waclient.keylessEvent
    ((Waclient.newMessageRecord Waclient.testFmt 42 (some Waclient.keylessEvent)).get
      (by decide)) (by decide)
  refine ⟨(h.2.2 (by decide)).1, ?_⟩
  rw [h.2.1]
  decide

/-- C3 counterexample: the bridge's `messageCollector` performs no
deduplication — adding the same message twice retains both copies and raises
the visible count from 1 to 2, so the second add of an already-seen record is
not rejected and two retained records share their dedup key. -/
theorem c3_bridge_collector_no_dedup :
    (((Bridge.newMessageCollector 5 50).add "a").add "a").messages = ["a", "a"]
    ∧ ((Bridge.newMessageCollector 5 50).add "a").messages.length = 1
    ∧ (((Bridge.newMessageCollector 5 50).add "a").add "a").messages.length = 2 := by
  decide

/-- C3 (amended): in the waclient collector, `appendRecord` rejects a record
whose dedup key was already seen — it returns `false` and leaves the state
(hence the visible count) unchanged — and consequently no two retained
records ever share a dedup key; the bridge's `messageCollector` performs no
deduplication at all. -/
theorem c3_appendRecord_dedup :
    (∀ (st : Waclient.CollectorState) (r : Waclient.messageRecord), r.key ∈ st.seen →
        Waclient.appendRecord st r = (false, st))
    ∧ (∀ records : List Waclient.messageRecord,
        ((Waclient.appendAll records).records.map Waclient.messageRecord.key).Nodup)
    ∧ (∀ (records : List Waclient.messageRecord) (r : Waclient.messageRecord),
        r.key ∈ (Waclient.appendAll records).records.map Waclient.messageRecord.key →
        Waclient.appendRecord (Waclient.appendAll records) r =
          (false, Waclient.appendAll records)) := by
  refine ⟨Waclient.appendRecord_rejects, ?_, ?_⟩
  · intro records
    exact (Waclient.appendAll_seenInv records).1
  · intro records r h
    exact Waclient.appendRecord_rejects _ _ ((Waclient.appendAll_seenInv records).2 _ h)

/-- C3 witness. -/
theorem c3_appendRecord_dedup_witness :
    Waclient.appendRecord { records := [], seen := ["k"] } { key := "k", timestamp := 0, content := "c" } =
      (false, { records := [], seen := ["k"] }) :=
  c3_appendRecord_dedup.1 { records := [], seen := ["k"] }
    { key := "k", timestamp := 0, content := "c" } (by decide)

/-- C4 counterexample: with a target of 2, adding the same message twice fires
the completion signal although only one distinct record is retained — the
signal tracks the raw retained count, not the distinct count the claim
states. -/
theorem c4_signal_fires_on_duplicates :
    (((Bridge.newMessageCollector 2 (Bridge.determineBufferCap 2)).add "x").add "x").fireCount = 1
    ∧ (((Bridge.newMessageCollector 2 (Bridge.determineBufferCap 2)).add "x").add "x").messages = ["x", "x"]
    ∧ (((Bridge.newMessageCollector 2 (Bridge.determineBufferCap 2)).add "x").add "x").messages.dedup.length = 1 := by
  decide

/-- C4 (amended): with a target of 0 the completion signal never fires; with a
positive target the channel send succeeds at most once before the single
drain (later adds do not re-fire, and the send is non-blocking by
construction), and it has succeeded exactly when the count of retained
records — duplicates included — has reached the target. -/
theorem c4_completion_signal :
    (∀ (cap : Int) (adds : List String),
        (adds.foldl Bridge.messageCollector.add
          (Bridge.newMessageCollector 0 cap)).fireCount = 0)
    ∧ (∀ (limit cap : Int) (adds : List String), 0 < limit →
        (adds.foldl Bridge.messageCollector.add
          (Bridge.newMessageCollector limit cap)).fireCount ≤ 1
        ∧ ((adds.foldl Bridge.messageCollector.add
              (Bridge.newMessageCollector limit cap)).fireCount = 1
            ↔ limit ≤ ((adds.foldl Bridge.messageCollector.add
                (Bridge.newMessageCollector limit cap)).messages.length : Int))) := by
  constructor
  · intro cap adds
    have h := Bridge.collInv_foldl 0 (if cap ≤ 0 then 1 else cap) adds _
      (Bridge.collInv_new 0 cap)
    obtain ⟨_, _, _, _, _, hfc, _, hiff⟩ := h
    by_contra hne
    have h1 : (adds.foldl Bridge.messageCollector.add
        (Bridge.newMessageCollector 0 cap)).fireCount = 1 := by omega
    exact absurd (hiff.mp h1).1 (by omega)
  · intro limit cap adds hpos
    have h := Bridge.collInv_foldl limit (if cap ≤ 0 then 1 else cap) adds _
      (Bridge.collInv_new limit cap)
    obtain ⟨_, _, _, _, _, hfc, _, hiff⟩ := h
    refine ⟨hfc, ?_⟩
    constructor
    · intro h1
      exact (hiff.mp h1).2
    · intro h1
      exact hiff.mpr ⟨hpos, h1⟩

/-- C4 witness. -/
theorem c4_completion_signal_witness :
    (["a"].foldl Bridge.messageCollector.add
      (Bridge.newMessageCollector 1 50)).fireCount ≤ 1
    ∧ ((["a"].foldl Bridge.messageCollector.add
          (Bridge.newMessageCollector 1 50)).fireCount = 1
        ↔ 1 ≤ ((["a"].foldl Bridge.messageCollector.add
            (Bridge.newMessageCollector 1 50)).messages.length : Int)) :=
  c4_completion_signal.2 1 50 ["a"] (by decide)

/-- C6: normalization clamps a negative `read_limit` to 0 (an explicit
negative limit is never replaced by the deployment default); the deployment
default count is applied only when the caller gave no explicit limit value
and the plan is listening; and the request `{"recipient":"123",
"read_limit":-5}` resolves to read limit 0, listening active, and the default
listen duration. -/
theorem c6_read_limit_clamp_and_default :
    (∀ (p : Bridge.runPayload) (cfg : Bridge.normalizedConfig),
        Bridge.normalizeConfig p = .ok cfg → p.ReadLimit < 0 → cfg.ReadLimit = 0)
    ∧ (∀ (p : Bridge.runPayload) (cfg : Bridge.normalizedConfig),
        Bridge.normalizeConfig p = .ok cfg →
        cfg.ReadLimit ≠ Bridge.clampedReadLimit p →
        (p.ReadLimit = 0 ∧ cfg.ShouldListen = true ∧
         cfg.ReadLimit = Bridge.defaultReadLimit))
    ∧ Bridge.normalizeConfig { Recipient := "123", ReadLimit := -5 } = .ok {
        SendText := "", ShouldSend := false, Recipient := "123", ShouldListen := true,
        ReadChat := "123", ReadLimit := 0, ListenDuration := 10000000000,
        explicitReadLimit := true, ShowQR := false, ForceRelink := false } := by
  refine ⟨?_, ?_, by decide⟩
  · intro p cfg h hneg
    rw [Bridge.normalizeConfig_ok_inversion p cfg h]
    simp only
    have hexp : Bridge.explicitReadLimitOf p = true := by
      simp only [Bridge.explicitReadLimitOf, bne_iff_ne]
      omega
    unfold Bridge.finalReadLimit
    rw [if_neg (by simp [hexp]), Bridge.clampedReadLimit, if_pos hneg]
  · intro p cfg h hne
    rw [Bridge.normalizeConfig_ok_inversion p cfg h] at hne ⊢
    simp only at hne ⊢
    unfold Bridge.finalReadLimit at hne ⊢
    by_cases hc : (Bridge.shouldListenOf p && decide (Bridge.clampedReadLimit p = 0) &&
        !Bridge.explicitReadLimitOf p && decide (Bridge.clampedListenSeconds p = 0)) = true
    · rw [if_pos hc]
      simp only [Bool.and_eq_true, Bool.not_eq_true', decide_eq_true_eq] at hc
      refine ⟨?_, hc.1.1.1, rfl⟩
      have := hc.1.2
      simp only [Bridge.explicitReadLimitOf, bne_eq_false_iff_eq] at this
      exact this
    · rw [if_neg hc] at hne
      exact absurd rfl hne

/-- C6 witness. -/
theorem c6_read_limit_clamp_and_default_witness :
    (Bridge.normalizedConfig.ReadLimit {
        SendText := "", ShouldSend := false, Recipient := "123", ShouldListen := true,
        ReadChat := "123", ReadLimit := 0, ListenDuration := 10000000000,
        explicitReadLimit := true, ShowQR := false, ForceRelink := false }) = 0
    ∧ ((Bridge.runPayload.ReadLimit { Recipient := "123" }) = 0
        ∧ (Bridge.normalizedConfig.ShouldListen {
            SendText := "", ShouldSend := false, Recipient := "123", ShouldListen := true,
            ReadChat := "123", ReadLimit := 10, ListenDuration := 10000000000,
            explicitReadLimit := false, ShowQR := false, ForceRelink := false }) = true
        ∧ (Bridge.normalizedConfig.ReadLimit {
            SendText := "", ShouldSend := false, Recipient := "123", ShouldListen := true,
            ReadChat := "123", ReadLimit := 10, ListenDuration := 10000000000,
            explicitReadLimit := false, ShowQR := false, ForceRelink := false }) =
          Bridge.defaultReadLimit) :=
  ⟨c6_read_limit_clamp_and_default.1 { Recipient := "123", ReadLimit := -5 } _
      (by decide) (by decide),
   c6_read_limit_clamp_and_default.2.1 { Recipient := "123" } _ (by decide) (by decide)⟩

/-- C8: `normalizeConfig` rejects with the "nothing to do" error exactly the
requests with empty (trimmed) send text, empty resolved read target, no
positive read limit, no positive listen duration, and both flags unset; the
empty request `{}` is such a request, and `WaRun` on it returns the error
response before performing any effect. -/
theorem c8_nothing_to_do :
    (∀ p : Bridge.runPayload,
        Bridge.normalizeConfig p = .error Bridge.nothingToDoMsg ↔
          (goTrimSpace p.SendText = "" ∧ goTrimSpace p.ReadChat = "" ∧
           goTrimSpace p.Recipient = "" ∧ p.ReadLimit ≤ 0 ∧
           Bridge.rawListenDuration p ≤ 0 ∧ p.ShowQR = false ∧ p.ForceRelink = false))
    ∧ (∀ o : Bridge.WaOracle,
        Bridge.waRun "79001111111" {} o = (Bridge.errResp Bridge.nothingToDoMsg, [])) := by
  constructor
  · intro p
    constructor
    · intro h
      unfold Bridge.normalizeConfig at h
      split at h
      · rw [Except.error.injEq] at h
        exact absurd h (by decide)
      · split at h
        · rename_i hc1 hcN
          simp only [Bool.and_eq_true, Bool.not_eq_true'] at hcN
          obtain ⟨⟨⟨hsend, hlisten⟩, hqr⟩, hfr⟩ := hcN
          obtain ⟨hrc, hr, hl, hd⟩ := (Bridge.shouldListenOf_false_iff p).mp hlisten
          refine ⟨?_, hrc, hr, hl, hd, hqr, hfr⟩
          simp only [Bridge.shouldSendOf, Bool.and_eq_false_iff, bne_eq_false_iff_eq] at hsend
          rcases hsend with hs | hs
          · exact hs
          · by_contra hne
            exact hc1 (by simp [hs, hne])
        · split at h
          · rw [Except.error.injEq] at h
            exact absurd h (by decide)
          · simp at h
    · intro ⟨hs, hrc, hr, hl, hd, hq, hf⟩
      unfold Bridge.normalizeConfig
      rw [if_neg (by simp [hs]), if_pos]
      simp only [Bool.and_eq_true, Bool.not_eq_true']
      refine ⟨⟨⟨?_, ?_⟩, hq⟩, hf⟩
      · simp [Bridge.shouldSendOf, hs]
      · exact (Bridge.shouldListenOf_false_iff p).mpr ⟨hrc, hr, hl, hd⟩
  · intro o
    rfl

/-- C10: `determineBufferCap` always returns a cap between 50 and 1000 (the
larger of 50 and the limit, capped at 1000); hence for a read limit above
1000 the retained count can never reach the target, the completion signal
never fires, and the listen wait — whose duration is positive whenever a
normalized plan listens — resolves by timeout, waiting the full configured
duration. -/
theorem c10_buffer_cap_starves_large_limits :
    (∀ limit : Int, Bridge.determineBufferCap limit = min (max 50 limit) 1000
        ∧ 50 ≤ Bridge.determineBufferCap limit
        ∧ Bridge.determineBufferCap limit ≤ 1000)
    ∧ (∀ (limit : Int) (adds : List String), 1000 < limit →
        ((adds.foldl Bridge.messageCollector.add
            (Bridge.newMessageCollector limit (Bridge.determineBufferCap limit))).messages.length
              : Int) < limit
        ∧ (adds.foldl Bridge.messageCollector.add
            (Bridge.newMessageCollector limit (Bridge.determineBufferCap limit))).fireCount = 0)
    ∧ (∀ (readLimit durationNs : Int) (coll : Bridge.messageCollector),
        coll.fireCount = 0 → 0 < durationNs →
        Bridge.listenPhase readLimit durationNs coll = .timedOut)
    ∧ (∀ (p : Bridge.runPayload) (cfg : Bridge.normalizedConfig),
        Bridge.normalizeConfig p = .ok cfg → cfg.ShouldListen = true →
        0 < cfg.ListenDuration) := by
  have hcap : ∀ limit : Int, Bridge.determineBufferCap limit = min (max 50 limit) 1000 := by
    intro limit
    unfold Bridge.determineBufferCap Bridge.defaultMessageBuffer Bridge.maxMessageBuffer
    simp only
    by_cases h1 : (50 : Int) < limit
    · rw [if_pos h1]
      by_cases h2 : (1000 : Int) < limit
      · rw [if_pos h2]
        omega
      · rw [if_neg h2]
        omega
    · rw [if_neg h1, if_neg (by omega)]
      omega
  refine ⟨?_, ?_, ?_, Bridge.normalizeConfig_listen_duration_pos⟩
  · intro limit
    refine ⟨hcap limit, ?_, ?_⟩ <;> rw [hcap limit] <;> omega
  · intro limit adds hlim
    have hc : Bridge.determineBufferCap limit = 1000 := by rw [hcap limit]; omega
    rw [hc]
    have h := Bridge.collInv_foldl limit ((1000 : Int)) adds
      (Bridge.newMessageCollector limit 1000) (by
        have h0 := Bridge.collInv_new limit 1000
        rwa [if_neg (by omega)] at h0)
    obtain ⟨_, _, _, _, _, hfc, hlen, hiff⟩ := h
    refine ⟨by omega, ?_⟩
    by_contra hne
    have h1 := hiff.mp (by omega)
    omega
  · intro readLimit durationNs coll h0 hdur
    unfold Bridge.listenPhase
    by_cases hb : 0 < readLimit ∧ coll.hasDone = true
    · rw [if_pos hb, if_pos hdur, if_neg (by omega)]
    · rw [if_neg hb, if_pos hdur]

/-- C10 witness. -/
theorem c10_buffer_cap_starves_large_limits_witness :
    (((["m"].foldl Bridge.messageCollector.add
        (Bridge.newMessageCollector 1001 (Bridge.determineBufferCap 1001))).messages.length
          : Int) < 1001
      ∧ (["m"].foldl Bridge.messageCollector.add
          (Bridge.newMessageCollector 1001 (Bridge.determineBufferCap 1001))).fireCount = 0)
    ∧ Bridge.listenPhase 1001 10000000000
        (Bridge.newMessageCollector 1001 (Bridge.determineBufferCap 1001)) = .timedOut
    ∧ 0 < (Bridge.normalizedConfig.ListenDuration
        { SendText := "", ShouldSend := false, Recipient := "123", ShouldListen := true,
          ReadChat := "123", ReadLimit := 10, ListenDuration := 10000000000,
          explicitReadLimit := false, ShowQR := false, ForceRelink := false }) :=
  ⟨c10_buffer_cap_starves_large_limits.2.1 1001 ["m"] (by decide),
   c10_buffer_cap_starves_large_limits.2.2.1 1001 10000000000 _ (by decide) (by decide),
   c10_buffer_cap_starves_large_limits.2.2.2 { Recipient := "123" } _ (by decide) (by decide)⟩

/-- C5: for every record list and limit, `snapshotRecords` returns the records
in timestamp-ascending order with the content string as tie-break; the result
is the whole (re-ordered) input when `limit ≤ 0` and the greatest
`limit`-sized suffix of the sorted sequence when `0 < limit`; and the sorted
key sequence is the same for any insertion order of the same records. -/
theorem c5_snapshot_sorted_bounded_deterministic :
    ∀ (records : List Waclient.messageRecord) (limit : Int),
      (Waclient.snapshotRecords records limit).Pairwise Waclient.keyOrder
      ∧ (limit ≤ 0 → (Waclient.snapshotRecords records limit).Perm records)
      ∧ (0 < limit →
          (Waclient.snapshotRecords records limit).length = min limit.toNat records.length
          ∧ ∃ dropped, records.mergeSort Waclient.recordLe =
              dropped ++ Waclient.snapshotRecords records limit)
      ∧ (∀ records2 : List Waclient.messageRecord, records.Perm records2 →
          (Waclient.snapshotRecords records limit).map Waclient.proj =
          (Waclient.snapshotRecords records2 limit).map Waclient.proj) := by
  have hlen : ∀ (records : List Waclient.messageRecord),
      (records.mergeSort Waclient.recordLe).length = records.length := by
    intro records
    exact List.length_mergeSort records
  have hsnap : ∀ (records : List Waclient.messageRecord) (limit : Int),
      Waclient.snapshotRecords records limit =
        if 0 < limit ∧ limit < (records.length : Int) then
          (records.mergeSort Waclient.recordLe).drop (records.length - limit.toNat)
        else records.mergeSort Waclient.recordLe := by
    intro records limit
    unfold Waclient.snapshotRecords
    by_cases he : records.isEmpty
    · rw [if_pos he]
      have hnil : records = [] := List.isEmpty_iff.mp he
      subst hnil
      simp
    · rw [if_neg he]
      simp only [hlen]
  intro records limit
  refine ⟨?_, ?_, ?_, ?_⟩
  · rw [hsnap]
    split
    · exact List.Pairwise.sublist (List.drop_sublist _ _)
        (Waclient.sorted_mergeSort_records records)
    · exact Waclient.sorted_mergeSort_records records
  · intro hle
    rw [hsnap, if_neg (by omega)]
    exact List.mergeSort_perm records Waclient.recordLe
  · intro hpos
    rw [hsnap]
    by_cases hc : 0 < limit ∧ limit < (records.length : Int)
    · rw [if_pos hc]
      constructor
      · rw [List.length_drop, hlen]
        omega
      · exact ⟨(records.mergeSort Waclient.recordLe).take (records.length - limit.toNat),
          (List.take_append_drop _ _).symm⟩
    · rw [if_neg hc]
      refine ⟨?_, [], rfl⟩
      rw [hlen]
      omega
  · intro records2 hperm
    have hlen12 : records.length = records2.length := hperm.length_eq
    have hproj := Waclient.proj_mergeSort_eq records records2 hperm
    rw [hsnap, hsnap, ← hlen12]
    split
    · rw [List.map_drop, List.map_drop, hproj]
    · rw [hproj]

/-- C5 witness. -/
theorem c5_snapshot_witness :
    (Waclient.snapshotRecords
        [{ key := "b", timestamp := 2, content := "B" },
         { key := "a", timestamp := 1, content := "A" }] 0).Perm
      [{ key := "b", timestamp := 2, content := "B" },
       { key := "a", timestamp := 1, content := "A" }]
    ∧ (Waclient.snapshotRecords
        [{ key := "b", timestamp := 2, content := "B" },
         { key := "a", timestamp := 1, content := "A" }] 1).length = min 1 2
    ∧ (Waclient.snapshotRecords
        [{ key := "b", timestamp := 2, content := "B" },
         { key := "a", timestamp := 1, content := "A" }] 0).map Waclient.proj =
      (Waclient.snapshotRecords
        [{ key := "a", timestamp := 1, content := "A" },
         { key := "b", timestamp := 2, content := "B" }] 0).map Waclient.proj :=
  ⟨(c5_snapshot_sorted_bounded_deterministic _ 0).2.1 (by decide),
   ((c5_snapshot_sorted_bounded_deterministic _ 1).2.2.1 (by decide)).1,
   (c5_snapshot_sorted_bounded_deterministic _ 0).2.2.2 _ (by decide)⟩
